import Mathlib

/-!
Verification development for the QuantoPick email scheduler
(`src/main.py` and `src/app.py`).

The Python source is shallowly embedded: pure computations (template
rendering, date formatting, message construction) become Lean functions,
and the effectful parts (HTTP responses of the provider, the filesystem,
the clock, the per-recipient send results) are supplied by explicit
environment records, so every embedded operation is a total computable
function of its environment.
-/

namespace EmailApi

/-! ## Literal string replacement (Python `str.replace`)

`main.py` renders templates with chained `str.replace` calls
(lines 886-888 and 900).  `pyReplace s pat rep` mirrors Python's
`s.replace(pat, rep)`: leftmost, non-overlapping replacement of every
occurrence of `pat` by `rep`. -/

/-- Boolean test that `pat` is a prefix of `l` (character lists). -/
def hasPre : List Char → List Char → Bool
  | [], _ => true
  | _ :: _, [] => false
  | p :: ps, c :: cs => p == c && hasPre ps cs

/-- Core of `str.replace` for a non-empty pattern `p :: ps`: scan left to
right, replacing each (non-overlapping) occurrence by `rep`. -/
def replaceCore (p : Char) (ps rep : List Char) : List Char → List Char
  | [] => []
  | c :: cs =>
    if hasPre (p :: ps) (c :: cs) then rep ++ replaceCore p ps rep (cs.drop ps.length)
    else c :: replaceCore p ps rep cs
termination_by l => l.length
decreasing_by
  · simp only [List.length_drop, List.length_cons]
    omega
  · simp

/-- Python `s.replace(pat, rep)`.  For an empty pattern Python interleaves
`rep` between all characters; the patterns used by the program are the
four non-empty placeholder tokens. -/
def pyReplace (s pat rep : String) : String :=
  match pat.data with
  | [] => String.mk (rep.data ++ s.data.foldr (fun c acc => c :: (rep.data ++ acc)) [])
  | p :: ps => String.mk (replaceCore p ps rep.data s.data)

/-! ## Placeholder tokens

The template contract (spec section 6, `main.py` lines 886-888 and 900)
uses the four literal tokens below.  Each token is kept both as a
character list (for the replacement lemmas) and as a `String`. -/

/-- Characters of the TODAY token after the two leading braces. -/
def restTODAY : List Char := ['T', 'O', 'D', 'A', 'Y', '}', '}']

/-- Characters of the TIMESTAMP token after the two leading braces. -/
def restTIMESTAMP : List Char := ['T', 'I', 'M', 'E', 'S', 'T', 'A', 'M', 'P', '}', '}']

/-- Characters of the DATE token after the two leading braces. -/
def restDATE : List Char := ['D', 'A', 'T', 'E', '}', '}']

/-- Characters of the NAME token after the two leading braces. -/
def restNAME : List Char := ['N', 'A', 'M', 'E', '}', '}']

/-- Pattern tail of the TODAY token (everything after its first character). -/
def tailTODAY : List Char := '{' :: restTODAY

/-- Pattern tail of the TIMESTAMP token. -/
def tailTIMESTAMP : List Char := '{' :: restTIMESTAMP

/-- Pattern tail of the DATE token. -/
def tailDATE : List Char := '{' :: restDATE

/-- Pattern tail of the NAME token. -/
def tailNAME : List Char := '{' :: restNAME

/-- Character list of the full TODAY token. -/
def tokTODAYl : List Char := '{' :: tailTODAY

/-- Character list of the full TIMESTAMP token. -/
def tokTIMESTAMPl : List Char := '{' :: tailTIMESTAMP

/-- Character list of the full DATE token. -/
def tokDATEl : List Char := '{' :: tailDATE

/-- Character list of the full NAME token. -/
def tokNAMEl : List Char := '{' :: tailNAME

/-- The TODAY token as a string. -/
def tokTODAY : String := String.mk tokTODAYl

/-- The TIMESTAMP token as a string. -/
def tokTIMESTAMP : String := String.mk tokTIMESTAMPl

/-- The DATE token as a string. -/
def tokDATE : String := String.mk tokDATEl

/-- The NAME token as a string. -/
def tokNAME : String := String.mk tokNAMEl

/-- A string with no opening-brace character; such text can never overlap
a placeholder token. -/
def braceFree (s : String) : Bool := s.data.all (fun c => c != '{')

/-- No occurrence of the pattern `pat` anywhere in the list. -/
def noOccurB (pat : List Char) : List Char → Bool
  | [] => true
  | c :: cs => !hasPre pat (c :: cs) && noOccurB pat cs

/-- A template containing none of the four placeholder tokens. -/
def noTokens (s : String) : Bool :=
  noOccurB tokTODAYl s.data && noOccurB tokTIMESTAMPl s.data &&
    noOccurB tokDATEl s.data && noOccurB tokNAMEl s.data

/-! ## Date formatting in the Dubai timezone

`main.py` line 882-884 computes `datetime.now(UAE_TZ)` (Asia/Dubai is a
fixed UTC+4 zone with no daylight saving) and formats it with
`strftime('%d %B %Y')`; the Unix timestamp is `int(now.timestamp())`.
Time is modelled as whole epoch seconds. -/

/-- English month name, as produced by `strftime('%B')`. -/
def monthName : Int → String
  | 1 => "January"
  | 2 => "February"
  | 3 => "March"
  | 4 => "April"
  | 5 => "May"
  | 6 => "June"
  | 7 => "July"
  | 8 => "August"
  | 9 => "September"
  | 10 => "October"
  | 11 => "November"
  | 12 => "December"
  | _ => ""

/-- Zero-padded two-digit rendering used by `strftime('%d')`. -/
def pad2 (n : Int) : String := if n < 10 then "0" ++ toString n else toString n

/-- Proleptic Gregorian (year, month, day) from days since 1970-01-01
(the standard civil-from-days algorithm). -/
def civilFromDays (z0 : Int) : Int × Int × Int :=
  let z := z0 + 719468
  let era := z.fdiv 146097
  let doe := z.fmod 146097
  let yoe := (doe - doe.fdiv 1460 + doe.fdiv 36524 - doe.fdiv 146096).fdiv 365
  let y := yoe + era * 400
  let doy := doe - (365 * yoe + yoe.fdiv 4 - yoe.fdiv 100)
  let mp := (5 * doy + 2).fdiv 153
  let d := doy - (153 * mp + 2).fdiv 5 + 1
  let m := if mp < 10 then mp + 3 else mp - 9
  (if m ≤ 2 then y + 1 else y, m, d)

/-- Result of `datetime.now(UAE_TZ).strftime('%d %B %Y')` at the given
Unix epoch second: the civil date of `epoch` shifted by the fixed +4 h
Dubai offset, e.g. `12 October 2025`. -/
def formatDubaiDate (epoch : Int) : String :=
  let days := (epoch + 4 * 3600).fdiv 86400
  let c := civilFromDays days
  pad2 c.2.2 ++ " " ++ monthName c.2.1 ++ " " ++ toString c.1

/-- Python `str(timestamp)` for the integer timestamp. -/
def intStr (i : Int) : String := toString i

/-! ## Template rendering (`main.py` lines 882-900)

The shared HTML is rendered once per run; `{{NAME}}` is substituted per
recipient inside the send loop. -/

/-- Lines 886-888: `template.replace("{{TODAY}}", today_str)
.replace("{{TIMESTAMP}}", str(timestamp)).replace("{{DATE}}", today_str)`. -/
def render_shared (template : String) (epoch : Int) : String :=
  pyReplace (pyReplace (pyReplace template tokTODAY (formatDubaiDate epoch))
    tokTIMESTAMP (intStr epoch)) tokDATE (formatDubaiDate epoch)

/-- Line 900: `html.replace("{{NAME}}", name)`. -/
def render_name (html nm : String) : String := pyReplace html tokNAME nm

/-! ## Python value rendering helpers

The failure message of a partial run interpolates the Python list of
failure dicts (`main.py` line 935).  The helpers below mirror `repr` of
strings, `None`, dicts and lists for printable text (escaping of
non-printable characters is not modelled; the program's own literals are
printable). -/

/-- Escape backslashes and the chosen quote character, as Python `repr` does. -/
def pyEscape (q : Char) : List Char → List Char
  | [] => []
  | c :: cs =>
    if c = '\\' || c = q then '\\' :: c :: pyEscape q cs else c :: pyEscape q cs

/-- Python `repr` of a `str`: single-quoted, except double-quoted when the
text contains a single quote but no double quote. -/
def pyStrRepr (s : String) : String :=
  if s.contains '\x27' && !s.contains '"' then
    "\"" ++ String.mk (pyEscape '"' s.data) ++ "\""
  else
    "\x27" ++ String.mk (pyEscape '\x27' s.data) ++ "\x27"

/-- Python `repr` of an optional string (`None` or a `str`). -/
def pyOptStrRepr : Option String → String
  | none => "None"
  | some s => pyStrRepr s

/-- Python `repr` of one failure dict `{'email': ..., 'error': ...}`
(insertion order of `main.py` lines 922-925). -/
def pyFailRepr (f : Option String × String) : String :=
  "\x7b\x27email\x27: " ++ pyOptStrRepr f.1 ++ ", \x27error\x27: " ++ pyStrRepr f.2 ++ "\x7d"

/-- Python `repr` of the `failed_emails` list. -/
def pyFailListRepr (fs : List (Option String × String)) : String :=
  "[" ++ String.intercalate (", ") (fs.map pyFailRepr) ++ "]"

/-! ## Contacts and the campaign runner (`send_emails_with_subject`)

`main.py` lines 825-952.  The provider's HTTP responses, the template
file, the clock and each `sg.send` outcome are inputs of the embedded
function, collected in `SendEnv`. -/

/-- One contact record as returned by the provider.  `first_name` is
`none` when the key is absent, `some none` when present with JSON null,
and `some (some s)` when present with string `s` (the distinction drives
`contact.get("first_name", "Trader")` and the `str.replace` TypeError). -/
structure Contact where
  email : Option String
  first_name : Option (Option String)
deriving DecidableEq, Repr

/-- One parsed provider HTTP response: status code, the
`json().get("result", [])` contact list, and the raw body text. -/
structure HttpResp where
  status : Nat
  result : List Contact
  text : String

/-- Environment of one campaign run: configuration, the two possible
fetch responses, the template file, the clock, and the outcome of the
`sg.send` call for each loop position (`none` = accepted,
`some e` = the call raised with message `e`, after the
`email_error.body` enrichment of lines 919-920). -/
structure SendEnv where
  apiKey : Option String
  sender : Option String
  getResp : HttpResp
  postResp : HttpResp
  templatePath : String
  template : Option String
  nowEpoch : Int
  send : Nat → Option String

/-- Python truthiness test used by `if not SENDGRID_API_KEY or not
SENDER_EMAIL` — environment variables are falsy when unset or empty. -/
def falsy : Option String → Bool
  | none => true
  | some s => s == ""

/-- Message of the `str.replace` TypeError raised on line 900 when a
contact's `first_name` is JSON null. -/
def typeErrNone : String := "replace() argument 2 must be str, not None"

/-- Line 899: `contact.get("first_name", "Trader")` — the default applies
only when the key is absent; a `none` result stands for Python `None`. -/
def contact_name (c : Contact) : Option String :=
  match c.first_name with
  | none => some ("Trader")
  | some v => v

/-- Aggregated counters of the per-recipient send loop
(lines 893-925): `sent_count`, `failed_emails`, and the number of
`sg.send` calls actually issued. -/
structure LoopOut where
  sent : Nat
  failures : List (Option String × String)
  attempts : Nat
deriving DecidableEq, Repr

/-- One iteration of the loop body (lines 896-925) at loop position `i`:
a null `first_name` raises inside the `try` at the `str.replace` call,
before `sg.send`, and is recorded as a failure; a raising `sg.send` is
recorded as a failure; a successful `sg.send` increments `sent_count`. -/
def step_outcome (env : SendEnv) (i : Nat) (c : Contact) : LoopOut :=
  match contact_name c with
  | none => ⟨0, [(c.email, typeErrNone)], 0⟩
  | some _ =>
    match env.send i with
    | none => ⟨1, [], 1⟩
    | some e => ⟨0, [(c.email, e)], 1⟩

/-- The per-recipient loop of lines 896-925: every contact is processed
in order regardless of earlier failures, accumulating `sent_count` and
`failed_emails`. -/
def send_loop (env : SendEnv) : Nat → List Contact → LoopOut
  | _, [] => ⟨0, [], 0⟩
  | i, c :: cs =>
    let s := step_outcome env i c
    let rest := send_loop env (i + 1) cs
    ⟨s.sent + rest.sent, s.failures ++ rest.failures, s.attempts + rest.attempts⟩

/-- Observable result of one campaign run: the returned
`(success, message, sent_count)` triple plus the run's trace
(failure list, number of `sg.send` calls, whether the search fallback
was issued, which contact list was used, the shared rendered HTML). -/
structure RunResult where
  success : Bool
  message : String
  sent : Nat
  failures : List (Option String × String)
  send_attempts : Nat
  post_attempted : Bool
  contacts_used : List Contact
  shared_html : Option String

/-- Lines 864-945: the part of the run after a contact list has been
obtained — empty-list no-op, template load, shared rendering, the send
loop and the final aggregation. -/
def process_contacts (env : SendEnv) (contacts : List Contact) (postAtt : Bool) : RunResult :=
  if contacts = [] then
    ⟨true, "No contacts found", 0, [], 0, postAtt, contacts, none⟩
  else
    match env.template with
    | none =>
      ⟨false, "Template file not found: " ++ env.templatePath, 0, [], 0, postAtt, contacts, none⟩
    | some tmpl =>
      let html := render_shared tmpl env.nowEpoch
      let out := send_loop env 0 contacts
      if out.failures = [] then
        ⟨true, "Emails sent to " ++ toString out.sent ++ " contacts", out.sent, out.failures,
          out.attempts, postAtt, contacts, some html⟩
      else
        ⟨false,
          "Sent " ++ toString out.sent ++ "/" ++ toString contacts.length ++
            " emails. Failures: " ++ pyFailListRepr out.failures,
          out.sent, out.failures, out.attempts, postAtt, contacts, some html⟩

/-- `send_emails_with_subject` (`main.py` lines 825-952): credential
check, GET fetch with POST-search fallback (both compared against
status 200 exactly), then `process_contacts`.  The subject prefix does
not influence the returned triple and is omitted. -/
def send_emails_with_subject (env : SendEnv) : RunResult :=
  if falsy env.apiKey || falsy env.sender then
    ⟨false, "Missing SendGrid API key or sender email", 0, [], 0, false, [], none⟩
  else if env.getResp.status ≠ 200 then
    if env.postResp.status ≠ 200 then
      ⟨false,
        "Failed to fetch contacts. Status: " ++ toString env.postResp.status ++
          ", Response: " ++ env.postResp.text,
        0, [], 0, true, [], none⟩
    else process_contacts env env.postResp.result true
  else process_contacts env env.getResp.result false

/-! ## Run record (`last_execution`) and its two would-be writers -/

/-- The process-wide `last_execution` dict (`main.py` lines 106-112). -/
structure RunRecord where
  timestamp : Option String
  status : String
  message : String
  emails_sent : Nat
  error : Option String
deriving DecidableEq, Repr

/-- Initial `last_execution` value (lines 106-112). -/
def initialRunRecord : RunRecord := ⟨none, "Not started", "", 0, none⟩

/-- `scheduled_daily_email_job` (lines 958-978, normal path): runs the
campaign and overwrites every field of `last_execution` with this run's
outcome.  `nowStr` is the formatted UAE start time. -/
def scheduled_daily_email_job (env : SendEnv) (nowStr : String) (_rec : RunRecord) : RunRecord :=
  let r := send_emails_with_subject env
  { timestamp := some nowStr
    status := if r.success then "Success" else "Failed"
    message := r.message
    emails_sent := r.sent
    error := if r.success then none else some r.message }

/-- HTTP response of the manual trigger endpoint. -/
structure TriggerResp where
  code : Nat
  statusStr : String
  message : String
  emails_sent : Nat
deriving DecidableEq, Repr

/-- `trigger_test` (`main.py` lines 761-789): after the API-key check it
runs the campaign and reports the outcome in the HTTP response; the
`last_execution` record is returned unchanged because the handler never
writes to it. -/
def trigger_test (env : SendEnv) (hdrKey : Option String) (expectedKey : String)
    (rec : RunRecord) : TriggerResp × RunRecord :=
  if hdrKey ≠ some expectedKey then
    (⟨401, "error", "Unauthorized - Invalid API key", 0⟩, rec)
  else
    let r := send_emails_with_subject env
    (⟨if r.success then 200 else 500, if r.success then "success" else "error",
      r.message, r.sent⟩, rec)

/-! ## Schedule configuration (`main.py` lines 123-160 and 534-624) -/

/-- The in-memory `schedule_config` dict. -/
structure ScheduleConfig where
  hour : Int
  minute : Int
  last_updated : Option String
  updated_by : String
deriving DecidableEq, Repr

/-- Default schedule (lines 124-129). -/
def initialScheduleConfig : ScheduleConfig := ⟨10, 0, none, "system"⟩

/-- Parsed content of `schedule_config.json`.  Each field is optional
because `schedule_config.update(loaded_config)` only overwrites the keys
present in the file. -/
structure FileCfg where
  hour : Option Int
  minute : Option Int
  last_updated : Option (Option String)
  updated_by : Option String
deriving DecidableEq, Repr

/-- Joint mutable state: the in-memory config and the JSON file
(`none` = file absent). -/
structure SysState where
  config : ScheduleConfig
  file : Option FileCfg
deriving DecidableEq, Repr

/-- `save_schedule_config` (lines 153-160): dumps the whole config dict;
a write error is caught and logged, leaving the file as it was and
raising nothing to the caller.  `writeOk` says whether the filesystem
write succeeds. -/
def save_schedule_config (writeOk : Bool) (cfg : ScheduleConfig) (file : Option FileCfg) :
    Option FileCfg :=
  if writeOk then some ⟨some cfg.hour, some cfg.minute, some cfg.last_updated, some cfg.updated_by⟩
  else file

/-- `load_schedule_config` (lines 138-151): if the file exists its parsed
dict is merged into the config with `dict.update` — without any range
validation; if absent, the default config is saved. -/
def load_schedule_config (writeOk : Bool) (cfg : ScheduleConfig) (file : Option FileCfg) :
    ScheduleConfig × Option FileCfg :=
  match file with
  | some f =>
    (⟨f.hour.getD cfg.hour, f.minute.getD cfg.minute,
      f.last_updated.getD cfg.last_updated, f.updated_by.getD cfg.updated_by⟩, some f)
  | none => (cfg, save_schedule_config writeOk cfg none)

/-- Request body of `/update-schedule` after `request.get_json()`.
For each of `hour`/`minute`: outer `none` = key absent or JSON null
(`data.get` returns `None`); `some none` = present but `int()` raises
`ValueError`; `some (some n)` = `int()` yields `n`. -/
structure UpdateReq where
  hour : Option (Option Int)
  minute : Option (Option Int)
  updated_by : Option String

/-- Response of a schedule endpoint call. -/
structure EndpointResp where
  code : Nat
  statusStr : String
  message : String
deriving DecidableEq, Repr

/-- `update_schedule` (`main.py` lines 544-624): input validation in
source order, then mutation of the in-memory config, `save_schedule_config`
and `reschedule_daily_job`.  `reschedOk` = whether `reschedule_daily_job`
succeeds; when it raises, the outer handler answers 500 — after the
config and the file were already mutated. -/
def update_schedule (nowStr : String) (writeOk reschedOk : Bool) (st : SysState)
    (req : Option UpdateReq) : EndpointResp × SysState :=
  match req with
  | none => (⟨400, "error", "No data provided"⟩, st)
  | some r =>
    match r.hour, r.minute with
    | none, _ => (⟨400, "error", "Both hour and minute are required"⟩, st)
    | some _, none => (⟨400, "error", "Both hour and minute are required"⟩, st)
    | some hv, some mv =>
      match hv, mv with
      | some h, some m =>
        if ¬(0 ≤ h ∧ h ≤ 23) then (⟨400, "error", "Hour must be between 0 and 23"⟩, st)
        else if ¬(0 ≤ m ∧ m ≤ 59) then (⟨400, "error", "Minute must be between 0 and 59"⟩, st)
        else
          let cfg : ScheduleConfig := ⟨h, m, some nowStr, r.updated_by.getD ("web_interface")⟩
          let file := save_schedule_config writeOk cfg st.file
          if reschedOk then
            (⟨200, "success",
              "Schedule updated successfully to " ++ pad2 h ++ ":" ++ pad2 m ++ " Dubai Time"⟩,
              ⟨cfg, file⟩)
          else (⟨500, "error", "Error rescheduling job"⟩, ⟨cfg, file⟩)
      | _, _ => (⟨400, "error", "Hour and minute must be valid numbers"⟩, st)

/-- `get_schedule` (lines 534-542), projected to the returned pair. -/
def get_schedule (st : SysState) : Int × Int := (st.config.hour, st.config.minute)

/-- The documented range invariant of `ScheduleConfig`. -/
def scheduleInv (c : ScheduleConfig) : Prop :=
  0 ≤ c.hour ∧ c.hour ≤ 23 ∧ 0 ≤ c.minute ∧ c.minute ≤ 59

instance (c : ScheduleConfig) : Decidable (scheduleInv c) := by
  unfold scheduleInv
  infer_instance

/-- Range condition on a config file's optional fields. -/
def fileInRange (f : FileCfg) : Prop :=
  (∀ h, f.hour = some h → 0 ≤ h ∧ h ≤ 23) ∧ (∀ m, f.minute = some m → 0 ≤ m ∧ m ≤ 59)

/-! ## Health check (`check_last_execution_status`, lines 320-347)

Timestamp parsing is abstracted: `ts_epoch` is the epoch-second value
represented by the stored string `ts_str` (the function parses the
stored `'%Y-%m-%d %H:%M:%S %Z'` string back into a UAE-local datetime). -/

/-- The fields of `last_execution` that the health check reads. -/
structure LastExecView where
  ts_epoch : Int
  ts_str : String
  status : String
  error : Option String

/-- Python rendering of `last_execution.get('error', 'Unknown error')`
inside the f-string — the key is always present so the default never
fires, and `None` renders as `None`. -/
def errText : Option String → String
  | none => "None"
  | some e => e

/-- `check_last_execution_status`: no record yet is its own issue; a
failed last run is an issue; a last run strictly older than 25 hours is
the staleness issue. -/
def check_last_execution_status (rec : Option LastExecView) (now : Int) : List String :=
  match rec with
  | none => ["No email executions recorded yet"]
  | some r =>
    (if r.status = "Failed" then ["Last execution failed: " ++ errText r.error] else []) ++
      (if now - r.ts_epoch > 25 * 3600 then
        ["No email sent in last 25 hours (last: " ++ r.ts_str ++ ")"] else [])

/-- Recognizer for the staleness issue string. -/
def isStaleIssue (s : String) : Bool :=
  hasPre ("No email sent in last 25 hours").data s.data

/-! ## Lemmas about literal replacement -/

theorem hasPre_append_self (l m : List Char) : hasPre l (l ++ m) = true := by
  induction l with
  | nil => rfl
  | cons c cs ih => simp [hasPre, ih]

theorem hasPre_ne_head (p : Char) (ps : List Char) (c : Char) (cs : List Char)
    (h : c ≠ p) : hasPre (p :: ps) (c :: cs) = false := by
  have hb : (p == c) = false := beq_eq_false_iff_ne.mpr (fun hpc => h hpc.symm)
  simp [hasPre, hb]

theorem replaceCore_nil (p : Char) (ps rep : List Char) : replaceCore p ps rep [] = [] := by
  simp [replaceCore]

theorem replaceCore_cons (p : Char) (ps rep : List Char) (c : Char) (cs : List Char) :
    replaceCore p ps rep (c :: cs) =
      if hasPre (p :: ps) (c :: cs) then rep ++ replaceCore p ps rep (cs.drop ps.length)
      else c :: replaceCore p ps rep cs := by
  rw [replaceCore]

theorem replaceCore_cons_neg (p : Char) (ps rep : List Char) (c : Char) (cs : List Char)
    (h : hasPre (p :: ps) (c :: cs) = false) :
    replaceCore p ps rep (c :: cs) = c :: replaceCore p ps rep cs := by
  rw [replaceCore_cons, h]
  simp

theorem replaceCore_skip (p : Char) (ps rep : List Char) (a l : List Char)
    (ha : ∀ c ∈ a, c ≠ p) : replaceCore p ps rep (a ++ l) = a ++ replaceCore p ps rep l := by
  induction a with
  | nil => rfl
  | cons c cs ih =>
    have hc : c ≠ p := ha c (by simp)
    have : replaceCore p ps rep (c :: (cs ++ l)) = c :: replaceCore p ps rep (cs ++ l) :=
      replaceCore_cons_neg p ps rep c (cs ++ l) (hasPre_ne_head p ps c _ hc)
    simpa [this] using ih (fun x hx => ha x (by simp [hx]))

theorem replaceCore_hit (p : Char) (ps rep l : List Char) :
    replaceCore p ps rep ((p :: ps) ++ l) = rep ++ replaceCore p ps rep l := by
  have hc : hasPre (p :: ps) (p :: (ps ++ l)) = true := by
    simpa using hasPre_append_self (p :: ps) l
  rw [List.cons_append, replaceCore_cons, hc]
  simp [List.drop_left]

/-- Two lists differ at some position within their common length. -/
def charMismatch (v w : List Char) : Bool := (v.zip w).any (fun q => q.1 != q.2)

theorem hasPre_of_mismatch (v w : List Char) (h : charMismatch v w = true) (m : List Char) :
    hasPre v (w ++ m) = false := by
  induction v generalizing w with
  | nil => simp [charMismatch] at h
  | cons a v' ih =>
    cases w with
    | nil => simp [charMismatch] at h
    | cons b w' =>
      by_cases hab : a = b
      · subst hab
        have h' : charMismatch v' w' = true := by
          simpa [charMismatch] using h
        simp [hasPre, ih w' h']
      · simp [hasPre, hab]

/-- Scanning with one placeholder pattern walks over a different
placeholder token unchanged: the two tokens mismatch at offset 0 and
offset 1, and the token's own tail contains no further opening brace. -/
theorem replaceCore_pass_token (ps rep rest l : List Char)
    (h0 : charMismatch ('{' :: ps) ('{' :: '{' :: rest) = true)
    (h1 : charMismatch ('{' :: ps) ('{' :: rest) = true)
    (hr : ∀ c ∈ rest, c ≠ '{') :
    replaceCore '{' ps rep (('{' :: '{' :: rest) ++ l) =
      ('{' :: '{' :: rest) ++ replaceCore '{' ps rep l := by
  have e0 : replaceCore '{' ps rep ('{' :: ('{' :: rest ++ l)) =
      '{' :: replaceCore '{' ps rep ('{' :: rest ++ l) := by
    apply replaceCore_cons_neg
    have := hasPre_of_mismatch ('{' :: ps) ('{' :: '{' :: rest) h0 l
    simpa using this
  have e1 : replaceCore '{' ps rep ('{' :: (rest ++ l)) =
      '{' :: replaceCore '{' ps rep (rest ++ l) := by
    apply replaceCore_cons_neg
    have := hasPre_of_mismatch ('{' :: ps) ('{' :: rest) h1 l
    simpa using this
  have e2 : replaceCore '{' ps rep (rest ++ l) = rest ++ replaceCore '{' ps rep l :=
    replaceCore_skip '{' ps rep rest l hr
  simp only [List.cons_append, List.append_assoc] at *
  rw [e0, e1, e2]

theorem replaceCore_noOccur (p : Char) (ps rep l : List Char)
    (h : noOccurB (p :: ps) l = true) : replaceCore p ps rep l = l := by
  induction l with
  | nil => exact replaceCore_nil p ps rep
  | cons c cs ih =>
    have h1 : hasPre (p :: ps) (c :: cs) = false := by
      have := h
      unfold noOccurB at this
      simp only [Bool.and_eq_true, Bool.not_eq_true'] at this
      exact this.1
    have h2 : noOccurB (p :: ps) cs = true := by
      have := h
      unfold noOccurB at this
      simp only [Bool.and_eq_true, Bool.not_eq_true'] at this
      exact this.2
    rw [replaceCore_cons_neg p ps rep c cs h1, ih h2]

theorem braceFree_mem (s : String) (h : braceFree s = true) : ∀ c ∈ s.data, c ≠ '{' := by
  intro c hc
  have := List.all_eq_true.mp h c hc
  simpa using this

theorem noOccurB_of_free (p : Char) (ps l : List Char) (h : ∀ c ∈ l, c ≠ p) :
    noOccurB (p :: ps) l = true := by
  induction l with
  | nil => rfl
  | cons c cs ih =>
    have h1 : hasPre (p :: ps) (c :: cs) = false := hasPre_ne_head p ps c cs (h c (by simp))
    unfold noOccurB
    simp [h1, ih (fun x hx => h x (by simp [hx]))]

theorem replaceCore_free (p : Char) (ps rep l : List Char) (h : ∀ c ∈ l, c ≠ p) :
    replaceCore p ps rep l = l :=
  replaceCore_noOccur p ps rep l (noOccurB_of_free p ps l h)

theorem string_eq_of_data {s t : String} (h : s.data = t.data) : s = t := by
  cases s
  cases t
  exact congrArg String.mk h

/-- Chaining the four replacements of `render_shared`/`render_name` over a
template decomposed into brace-free segments around one occurrence of each
token substitutes each token in place and alters nothing else. -/
theorem render_chain (a b c d e dd ss nn : List Char)
    (ha : ∀ x ∈ a, x ≠ '{') (hb : ∀ x ∈ b, x ≠ '{') (hc : ∀ x ∈ c, x ≠ '{')
    (hd : ∀ x ∈ d, x ≠ '{') (he : ∀ x ∈ e, x ≠ '{') (hdd : ∀ x ∈ dd, x ≠ '{')
    (hss : ∀ x ∈ ss, x ≠ '{') :
    replaceCore '{' tailNAME nn (replaceCore '{' tailDATE dd
      (replaceCore '{' tailTIMESTAMP ss (replaceCore '{' tailTODAY dd
        (a ++ (tokTODAYl ++ (b ++ (tokDATEl ++ (c ++ (tokTIMESTAMPl ++
          (d ++ (tokNAMEl ++ e))))))))))) =
      a ++ (dd ++ (b ++ (dd ++ (c ++ (ss ++ (d ++ (nn ++ e))))))) := by
  simp only [tokTODAYl, tokDATEl, tokTIMESTAMPl, tokNAMEl,
    tailTODAY, tailDATE, tailTIMESTAMP, tailNAME]
  rw [replaceCore_skip '{' ('{' :: restTODAY) dd a _ ha]
  rw [replaceCore_hit '{' ('{' :: restTODAY) dd _]
  rw [replaceCore_skip '{' ('{' :: restTODAY) dd b _ hb]
  rw [replaceCore_pass_token ('{' :: restTODAY) dd restDATE _ (by decide) (by decide) (by decide)]
  rw [replaceCore_skip '{' ('{' :: restTODAY) dd c _ hc]
  rw [replaceCore_pass_token ('{' :: restTODAY) dd restTIMESTAMP _ (by decide) (by decide)
    (by decide)]
  rw [replaceCore_skip '{' ('{' :: restTODAY) dd d _ hd]
  rw [replaceCore_pass_token ('{' :: restTODAY) dd restNAME _ (by decide) (by decide) (by decide)]
  rw [replaceCore_free '{' ('{' :: restTODAY) dd e he]
  rw [replaceCore_skip '{' ('{' :: restTIMESTAMP) ss a _ ha]
  rw [replaceCore_skip '{' ('{' :: restTIMESTAMP) ss dd _ hdd]
  rw [replaceCore_skip '{' ('{' :: restTIMESTAMP) ss b _ hb]
  rw [replaceCore_pass_token ('{' :: restTIMESTAMP) ss restDATE _ (by decide) (by decide)
    (by decide)]
  rw [replaceCore_skip '{' ('{' :: restTIMESTAMP) ss c _ hc]
  rw [replaceCore_hit '{' ('{' :: restTIMESTAMP) ss _]
  rw [replaceCore_skip '{' ('{' :: restTIMESTAMP) ss d _ hd]
  rw [replaceCore_pass_token ('{' :: restTIMESTAMP) ss restNAME _ (by decide) (by decide)
    (by decide)]
  rw [replaceCore_free '{' ('{' :: restTIMESTAMP) ss e he]
  rw [replaceCore_skip '{' ('{' :: restDATE) dd a _ ha]
  rw [replaceCore_skip '{' ('{' :: restDATE) dd dd _ hdd]
  rw [replaceCore_skip '{' ('{' :: restDATE) dd b _ hb]
  rw [replaceCore_hit '{' ('{' :: restDATE) dd _]
  rw [replaceCore_skip '{' ('{' :: restDATE) dd c _ hc]
  rw [replaceCore_skip '{' ('{' :: restDATE) dd ss _ hss]
  rw [replaceCore_skip '{' ('{' :: restDATE) dd d _ hd]
  rw [replaceCore_pass_token ('{' :: restDATE) dd restNAME _ (by decide) (by decide) (by decide)]
  rw [replaceCore_free '{' ('{' :: restDATE) dd e he]
  rw [replaceCore_skip '{' ('{' :: restNAME) nn a _ ha]
  rw [replaceCore_skip '{' ('{' :: restNAME) nn dd _ hdd]
  rw [replaceCore_skip '{' ('{' :: restNAME) nn b _ hb]
  rw [replaceCore_skip '{' ('{' :: restNAME) nn dd _ hdd]
  rw [replaceCore_skip '{' ('{' :: restNAME) nn c _ hc]
  rw [replaceCore_skip '{' ('{' :: restNAME) nn ss _ hss]
  rw [replaceCore_skip '{' ('{' :: restNAME) nn d _ hd]
  rw [replaceCore_hit '{' ('{' :: restNAME) nn _]
  rw [replaceCore_free '{' ('{' :: restNAME) nn e he]

theorem pyReplace_tokTODAY (s rep : String) :
    pyReplace s tokTODAY rep = String.mk (replaceCore '{' tailTODAY rep.data s.data) := rfl

theorem pyReplace_tokTIMESTAMP (s rep : String) :
    pyReplace s tokTIMESTAMP rep = String.mk (replaceCore '{' tailTIMESTAMP rep.data s.data) := rfl

theorem pyReplace_tokDATE (s rep : String) :
    pyReplace s tokDATE rep = String.mk (replaceCore '{' tailDATE rep.data s.data) := rfl

theorem pyReplace_tokNAME (s rep : String) :
    pyReplace s tokNAME rep = String.mk (replaceCore '{' tailNAME rep.data s.data) := rfl

theorem data_mk (l : List Char) : (String.mk l).data = l := rfl

theorem tokTODAY_data : tokTODAY.data = tokTODAYl := rfl

theorem tokTIMESTAMP_data : tokTIMESTAMP.data = tokTIMESTAMPl := rfl

theorem tokDATE_data : tokDATE.data = tokDATEl := rfl

theorem tokNAME_data : tokNAME.data = tokNAMEl := rfl

theorem noTokens_parts (t : String) (h : noTokens t = true) :
    noOccurB tokTODAYl t.data = true ∧ noOccurB tokTIMESTAMPl t.data = true ∧
      noOccurB tokDATEl t.data = true ∧ noOccurB tokNAMEl t.data = true := by
  unfold noTokens at h
  simp only [Bool.and_eq_true] at h
  exact ⟨h.1.1.1, h.1.1.2, h.1.2, h.2⟩

/-! ## Lemmas about the send loop -/

theorem contact_name_isSome (c : Contact) (h : c.first_name ≠ some none) :
    ∃ nm, contact_name c = some nm := by
  unfold contact_name
  cases hf : c.first_name with
  | none => exact ⟨("Trader"), rfl⟩
  | some v =>
    cases v with
    | none => exact absurd hf h
    | some s => exact ⟨s, rfl⟩

theorem send_loop_nil (env : SendEnv) (i : Nat) : send_loop env i [] = ⟨0, [], 0⟩ := rfl

theorem send_loop_cons (env : SendEnv) (i : Nat) (c : Contact) (cs : List Contact) :
    send_loop env i (c :: cs) =
      ⟨(step_outcome env i c).sent + (send_loop env (i + 1) cs).sent,
        (step_outcome env i c).failures ++ (send_loop env (i + 1) cs).failures,
        (step_outcome env i c).attempts + (send_loop env (i + 1) cs).attempts⟩ := rfl

theorem send_loop_append (env : SendEnv) (xs ys : List Contact) : ∀ i,
    send_loop env i (xs ++ ys) =
      ⟨(send_loop env i xs).sent + (send_loop env (i + xs.length) ys).sent,
        (send_loop env i xs).failures ++ (send_loop env (i + xs.length) ys).failures,
        (send_loop env i xs).attempts + (send_loop env (i + xs.length) ys).attempts⟩ := by
  induction xs with
  | nil =>
    intro i
    simp [send_loop_nil]
  | cons x xs ih =>
    intro i
    have harith : i + 1 + xs.length = i + (xs.length + 1) := by omega
    rw [List.cons_append, send_loop_cons, ih (i + 1), send_loop_cons, harith]
    simp only [LoopOut.mk.injEq, List.length_cons]
    refine ⟨by omega, by simp [List.append_assoc], by omega⟩

theorem send_loop_all_ok (env : SendEnv) (xs : List Contact) : ∀ i,
    (∀ c ∈ xs, c.first_name ≠ some none) → (∀ k, k < xs.length → env.send (i + k) = none) →
    send_loop env i xs = ⟨xs.length, [], xs.length⟩ := by
  induction xs with
  | nil =>
    intro i _ _
    rfl
  | cons x xs ih =>
    intro i hn hs
    obtain ⟨nm, hnm⟩ := contact_name_isSome x (hn x (by simp))
    have hx : env.send i = none := by
      have := hs 0 (by simp)
      simpa using this
    have hstep : step_outcome env i x = ⟨1, [], 1⟩ := by
      unfold step_outcome
      rw [hnm, hx]
    have hrest : send_loop env (i + 1) xs = ⟨xs.length, [], xs.length⟩ := by
      refine ih (i + 1) (fun c h3 => hn c (by simp [h3])) (fun k hk => ?_)
      have := hs (k + 1) (by simpa using Nat.succ_lt_succ hk)
      have harith : i + (k + 1) = i + 1 + k := by omega
      rwa [harith] at this
    rw [send_loop_cons, hstep, hrest]
    simp [Nat.add_comm]

theorem ne_nil_append_cons (pre post : List Contact) (cj : Contact) :
    pre ++ cj :: post ≠ [] := by
  cases pre <;> simp

theorem process_success_no_failures (env : SendEnv) (contacts : List Contact) (postAtt : Bool) :
    (process_contacts env contacts postAtt).success = true →
    (process_contacts env contacts postAtt).failures = [] := by
  unfold process_contacts
  split
  · intro _
    rfl
  · cases env.template with
    | none =>
      intro h
      simp at h
    | some tmpl =>
      simp only
      split
      · rename_i hq
        intro _
        exact hq
      · intro h
        simp at h

theorem success_implies_no_failures (env : SendEnv) :
    (send_emails_with_subject env).success = true →
    (send_emails_with_subject env).failures = [] := by
  unfold send_emails_with_subject
  split
  · intro h
    simp at h
  · split
    · split
      · intro h
        simp at h
      · exact process_success_no_failures env _ _
    · exact process_success_no_failures env _ _

/-! ## Claim C6 — literal template rendering -/

/-- C6: template rendering is literal exact-string replacement: in a
template that contains each placeholder once, separated by brace-free
text, `\x7b\x7bTODAY\x7d\x7d` and `\x7b\x7bDATE\x7d\x7d` are both
replaced by the same UTC+4 date string, `\x7b\x7bTIMESTAMP\x7d\x7d` by
the decimal epoch timestamp, and `\x7b\x7bNAME\x7d\x7d` by the
recipient's display name, with no characters outside the tokens altered;
and a template containing none of the four tokens passes through
verbatim. -/
theorem c6_template_rendering_literal (a b c d e nm t2 : String) (ts : Int)
    (ha : braceFree a = true) (hb : braceFree b = true) (hc : braceFree c = true)
    (hd : braceFree d = true) (he : braceFree e = true)
    (hdd : braceFree (formatDubaiDate ts) = true) (hss : braceFree (intStr ts) = true)
    (h2 : noTokens t2 = true) :
    render_name (render_shared
        (a ++ tokTODAY ++ b ++ tokDATE ++ c ++ tokTIMESTAMP ++ d ++ tokNAME ++ e) ts) nm =
      a ++ formatDubaiDate ts ++ b ++ formatDubaiDate ts ++ c ++ intStr ts ++ d ++ nm ++ e ∧
      render_name (render_shared t2 ts) nm = t2 := by
  constructor
  · apply string_eq_of_data
    simp only [render_name, render_shared, pyReplace_tokTODAY, pyReplace_tokTIMESTAMP,
      pyReplace_tokDATE, pyReplace_tokNAME, data_mk, String.data_append,
      tokTODAY_data, tokTIMESTAMP_data, tokDATE_data, tokNAME_data, List.append_assoc]
    exact render_chain a.data b.data c.data d.data e.data (formatDubaiDate ts).data
      (intStr ts).data nm.data (braceFree_mem a ha) (braceFree_mem b hb) (braceFree_mem c hc)
      (braceFree_mem d hd) (braceFree_mem e he) (braceFree_mem _ hdd) (braceFree_mem _ hss)
  · have hp := noTokens_parts t2 h2
    apply string_eq_of_data
    simp only [render_name, render_shared, pyReplace_tokTODAY, pyReplace_tokTIMESTAMP,
      pyReplace_tokDATE, pyReplace_tokNAME, data_mk]
    rw [replaceCore_noOccur '{' tailTODAY (formatDubaiDate ts).data t2.data hp.1]
    rw [replaceCore_noOccur '{' tailTIMESTAMP (intStr ts).data t2.data hp.2.1]
    rw [replaceCore_noOccur '{' tailDATE (formatDubaiDate ts).data t2.data hp.2.2.1]
    rw [replaceCore_noOccur '{' tailNAME nm.data t2.data hp.2.2.2]

/-- Witness for C6 at the spec's concrete test template, run at epoch
1760227200 (12 October 2025 in Dubai) with recipient name `Ana`. -/
theorem c6_template_rendering_literal_witness :
    render_name (render_shared
        ("" ++ tokTODAY ++ "|" ++ tokDATE ++ " / " ++ tokTIMESTAMP ++ " / " ++ tokNAME ++ "!")
        1760227200) ("Ana") =
      "" ++ formatDubaiDate 1760227200 ++ "|" ++ formatDubaiDate 1760227200 ++ " / " ++
        intStr 1760227200 ++ " / " ++ "Ana" ++ "!" ∧
      render_name (render_shared ("\x7b\x7bOTHER\x7d\x7d unresolved") 1760227200) ("Ana") =
        "\x7b\x7bOTHER\x7d\x7d unresolved" :=
  c6_template_rendering_literal ("") ("|") (" / ") (" / ") ("!") ("Ana")
    ("\x7b\x7bOTHER\x7d\x7d unresolved") 1760227200 (by decide) (by decide) (by decide)
    (by decide) (by decide) (by decide) (by decide) (by decide)

/-! ## Characterizations of `process_contacts` and the full run -/

theorem process_contacts_fail (env : SendEnv) (contacts : List Contact) (postAtt : Bool)
    (tmpl : String) (out : LoopOut) (hne : contacts ≠ []) (htmpl : env.template = some tmpl)
    (hloop : send_loop env 0 contacts = out) (hfail : out.failures ≠ []) :
    process_contacts env contacts postAtt =
      ⟨false,
        "Sent " ++ toString out.sent ++ "/" ++ toString contacts.length ++
          " emails. Failures: " ++ pyFailListRepr out.failures,
        out.sent, out.failures, out.attempts, postAtt, contacts,
        some (render_shared tmpl env.nowEpoch)⟩ := by
  unfold process_contacts
  rw [if_neg hne, htmpl]
  dsimp only
  rw [hloop, if_neg hfail]

theorem run_with_get_200 (env : SendEnv) (hkey : falsy env.apiKey = false)
    (hsender : falsy env.sender = false) (hget : env.getResp.status = 200) :
    send_emails_with_subject env = process_contacts env env.getResp.result false := by
  unfold send_emails_with_subject
  rw [hkey, hsender, hget]
  simp

/-! ## Claim C1 — per-recipient send isolation -/

/-- C1: in a run whose fetched list is `pre ++ cj :: post` where exactly
the send for `cj` raises (`err`) and every other send succeeds, every
other recipient is still attempted (`send_attempts` = N), the run returns
success `false`, `sent_count` = N−1, the failure list holds exactly the
one failure with `cj`'s email and the error detail, the returned message
lists exactly that failure, and — in general — overall success is `true`
only when the failure list is empty. -/
theorem c1_per_recipient_send_isolation (env : SendEnv) (pre post : List Contact)
    (cj : Contact) (err tmpl : String)
    (hkey : falsy env.apiKey = false) (hsender : falsy env.sender = false)
    (hget : env.getResp.status = 200)
    (hlist : env.getResp.result = pre ++ cj :: post)
    (htmpl : env.template = some tmpl)
    (hnames : ∀ c ∈ pre ++ cj :: post, c.first_name ≠ some none)
    (hpre : ∀ k, k < pre.length → env.send k = none)
    (hj : env.send pre.length = some err)
    (hpost : ∀ k, k < post.length → env.send (pre.length + 1 + k) = none) :
    (send_emails_with_subject env).success = false ∧
      (send_emails_with_subject env).sent = pre.length + post.length ∧
      (send_emails_with_subject env).send_attempts = pre.length + 1 + post.length ∧
      (send_emails_with_subject env).failures = [(cj.email, err)] ∧
      (send_emails_with_subject env).message =
        "Sent " ++ toString (pre.length + post.length) ++ "/" ++
          toString (pre.length + 1 + post.length) ++ " emails. Failures: " ++
          pyFailListRepr [(cj.email, err)] ∧
      ∀ env2 : SendEnv, (send_emails_with_subject env2).success = true →
        (send_emails_with_subject env2).failures = [] := by
  have hnamepre : ∀ c ∈ pre, c.first_name ≠ some none := fun c h => hnames c (by simp [h])
  have hnamepost : ∀ c ∈ post, c.first_name ≠ some none := fun c h => hnames c (by simp [h])
  have hlooppre : send_loop env 0 pre = ⟨pre.length, [], pre.length⟩ := by
    refine send_loop_all_ok env pre 0 hnamepre (fun k hk => ?_)
    simpa using hpre k hk
  have hlooppost : send_loop env (pre.length + 1) post = ⟨post.length, [], post.length⟩ :=
    send_loop_all_ok env post (pre.length + 1) hnamepost hpost
  obtain ⟨nm, hnm⟩ := contact_name_isSome cj (hnames cj (by simp))
  have hstep : step_outcome env pre.length cj = ⟨0, [(cj.email, err)], 1⟩ := by
    unfold step_outcome
    rw [hnm, hj]
  have hloop : send_loop env 0 (pre ++ cj :: post) =
      ⟨pre.length + post.length, [(cj.email, err)], pre.length + 1 + post.length⟩ := by
    rw [send_loop_append env pre (cj :: post) 0]
    simp only [Nat.zero_add]
    rw [send_loop_cons, hstep, hlooppre, hlooppost]
    simp only [LoopOut.mk.injEq]
    refine ⟨by omega, by simp, by omega⟩
  have hlen : (pre ++ cj :: post).length = pre.length + 1 + post.length := by
    simp [List.length_append, List.length_cons]
    omega
  have hrun : send_emails_with_subject env =
      process_contacts env (pre ++ cj :: post) false := by
    rw [run_with_get_200 env hkey hsender hget, hlist]
  rw [hrun, process_contacts_fail env (pre ++ cj :: post) false tmpl
    ⟨pre.length + post.length, [(cj.email, err)], pre.length + 1 + post.length⟩
    (ne_nil_append_cons pre post cj) htmpl hloop (by simp)]
  refine ⟨rfl, rfl, rfl, rfl, ?_, fun env2 => success_implies_no_failures env2⟩
  rw [hlen]

/-- Contact used by several concrete environments: a normal recipient. -/
def contactA : Contact := ⟨some ("a@x.com"), some (some ("Al"))⟩

/-- Concrete contact whose `first_name` key is absent. -/
def contactB : Contact := ⟨some ("b@x.com"), none⟩

/-- Concrete contact with another present name. -/
def contactC : Contact := ⟨some ("c@x.com"), some (some ("Cy"))⟩

/-- Concrete environment for the C1 witness: three recipients, the
second send raises `boom`, the others succeed. -/
def envC1 : SendEnv :=
  { apiKey := some ("KEY")
    sender := some ("s@x.com")
    getResp := ⟨200, [contactA, contactB, contactC], ""⟩
    postResp := ⟨500, [], "unused"⟩
    templatePath := "template.html"
    template := some ("Hello \x7b\x7bNAME\x7d\x7d")
    nowEpoch := 1760227200
    send := fun k => if k = 1 then some ("boom") else none }

/-- Witness for C1: with three recipients and the middle send raising,
the run reports `(false, message listing the one failure, 2)` and all
three sends were attempted. -/
theorem c1_per_recipient_send_isolation_witness :
    (send_emails_with_subject envC1).success = false ∧
      (send_emails_with_subject envC1).sent = 2 ∧
      (send_emails_with_subject envC1).send_attempts = 3 ∧
      (send_emails_with_subject envC1).failures = [(some ("b@x.com"), "boom")] ∧
      (send_emails_with_subject envC1).message =
        "Sent " ++ toString 2 ++ "/" ++ toString 3 ++ " emails. Failures: " ++
          pyFailListRepr [(some ("b@x.com"), "boom")] ∧
      ∀ env2 : SendEnv, (send_emails_with_subject env2).success = true →
        (send_emails_with_subject env2).failures = [] :=
  c1_per_recipient_send_isolation envC1 [contactA] [contactC] contactB ("boom")
    ("Hello \x7b\x7bNAME\x7d\x7d") rfl rfl rfl rfl rfl (by decide) (by decide) rfl (by decide)

/-! ## Claim C4 — empty recipient list is a successful no-op -/

/-- C4: when credentials are present and the fetch succeeds with an empty
contact list (either on the primary GET or on the fallback search), the
run returns `(true, "No contacts found", 0)` and issues no send call. -/
theorem c4_empty_contacts_noop (env : SendEnv)
    (hkey : falsy env.apiKey = false) (hsender : falsy env.sender = false)
    (hfetch : (env.getResp.status = 200 ∧ env.getResp.result = []) ∨
      (env.getResp.status ≠ 200 ∧ env.postResp.status = 200 ∧ env.postResp.result = [])) :
    (send_emails_with_subject env).success = true ∧
      (send_emails_with_subject env).message = "No contacts found" ∧
      (send_emails_with_subject env).sent = 0 ∧
      (send_emails_with_subject env).send_attempts = 0 ∧
      (send_emails_with_subject env).contacts_used = [] := by
  have hout : ∀ p, process_contacts env [] p =
      ⟨true, "No contacts found", 0, [], 0, p, [], none⟩ := by
    intro p
    unfold process_contacts
    simp
  rcases hfetch with ⟨hg, hr⟩ | ⟨hg, hp, hr⟩
  · rw [run_with_get_200 env hkey hsender hg, hr, hout]
    exact ⟨rfl, rfl, rfl, rfl, rfl⟩
  · have hrun : send_emails_with_subject env = process_contacts env env.postResp.result true := by
      unfold send_emails_with_subject
      rw [hkey, hsender, hp]
      simp [hg]
    rw [hrun, hr, hout]
    exact ⟨rfl, rfl, rfl, rfl, rfl⟩

/-- Concrete environment for the C4 witness: GET succeeds with zero
contacts. -/
def envC4 : SendEnv :=
  { apiKey := some ("KEY")
    sender := some ("s@x.com")
    getResp := ⟨200, [], ""⟩
    postResp := ⟨500, [], "unused"⟩
    templatePath := "template.html"
    template := some ("Hello")
    nowEpoch := 1760227200
    send := fun _ => none }

/-- Witness for C4 at a concrete empty-list environment. -/
theorem c4_empty_contacts_noop_witness :
    (send_emails_with_subject envC4).success = true ∧
      (send_emails_with_subject envC4).message = "No contacts found" ∧
      (send_emails_with_subject envC4).sent = 0 ∧
      (send_emails_with_subject envC4).send_attempts = 0 ∧
      (send_emails_with_subject envC4).contacts_used = [] :=
  c4_empty_contacts_noop envC4 rfl rfl (Or.inl ⟨rfl, rfl⟩)

/-! ## Claim C10 — display-name fallback semantics -/

/-- C10: the `Trader` fallback applies only when `first_name` is absent;
a present name is used verbatim, so an empty-string name renders
`\x7b\x7bNAME\x7d\x7d` as the empty string; and a present-but-null name
makes that one recipient fail with the `str.replace` TypeError, recorded
in the failure list with the recipient's email, while the remaining
recipients are still processed (and, the send never being reached, no
send call is issued for the null-name recipient). -/
theorem c10_display_name_fallback (env : SendEnv) (pre post : List Contact) (cnull : Contact)
    (tmpl : String)
    (hkey : falsy env.apiKey = false) (hsender : falsy env.sender = false)
    (hget : env.getResp.status = 200)
    (hlist : env.getResp.result = pre ++ cnull :: post)
    (htmpl : env.template = some tmpl)
    (hnull : cnull.first_name = some none)
    (hnames : ∀ c ∈ pre ++ post, c.first_name ≠ some none)
    (hpre : ∀ k, k < pre.length → env.send k = none)
    (hpost : ∀ k, k < post.length → env.send (pre.length + 1 + k) = none) :
    (∀ c : Contact, c.first_name = none → contact_name c = some ("Trader")) ∧
      (∀ (c : Contact) (s : String), c.first_name = some (some s) → contact_name c = some s) ∧
      (∀ a b : String, braceFree a = true → braceFree b = true →
        render_name (a ++ tokNAME ++ b) "" = a ++ b) ∧
      (send_emails_with_subject env).failures = [(cnull.email, typeErrNone)] ∧
      (send_emails_with_subject env).sent = pre.length + post.length ∧
      (send_emails_with_subject env).send_attempts = pre.length + post.length ∧
      (send_emails_with_subject env).success = false := by
  have hnamepre : ∀ c ∈ pre, c.first_name ≠ some none :=
    fun c h => hnames c (by simp [h])
  have hnamepost : ∀ c ∈ post, c.first_name ≠ some none :=
    fun c h => hnames c (by simp [h])
  have hlooppre : send_loop env 0 pre = ⟨pre.length, [], pre.length⟩ := by
    refine send_loop_all_ok env pre 0 hnamepre (fun k hk => ?_)
    simpa using hpre k hk
  have hlooppost : send_loop env (pre.length + 1) post = ⟨post.length, [], post.length⟩ :=
    send_loop_all_ok env post (pre.length + 1) hnamepost hpost
  have hcn : contact_name cnull = none := by
    unfold contact_name
    rw [hnull]
  have hstep : step_outcome env pre.length cnull = ⟨0, [(cnull.email, typeErrNone)], 0⟩ := by
    unfold step_outcome
    rw [hcn]
  have hloop : send_loop env 0 (pre ++ cnull :: post) =
      ⟨pre.length + post.length, [(cnull.email, typeErrNone)], pre.length + post.length⟩ := by
    rw [send_loop_append env pre (cnull :: post) 0]
    simp only [Nat.zero_add]
    rw [send_loop_cons, hstep, hlooppre, hlooppost]
    simp only [LoopOut.mk.injEq]
    refine ⟨by omega, by simp, by omega⟩
  have hrun : send_emails_with_subject env =
      process_contacts env (pre ++ cnull :: post) false := by
    rw [run_with_get_200 env hkey hsender hget, hlist]
  rw [hrun, process_contacts_fail env (pre ++ cnull :: post) false tmpl
    ⟨pre.length + post.length, [(cnull.email, typeErrNone)], pre.length + post.length⟩
    (ne_nil_append_cons pre post cnull) htmpl hloop (by simp)]
  refine ⟨?_, ?_, ?_, rfl, rfl, rfl, rfl⟩
  · intro c h
    unfold contact_name
    rw [h]
  · intro c s h
    unfold contact_name
    rw [h]
  · intro a b ha hb
    apply string_eq_of_data
    have hz : ("" : String).data = [] := rfl
    simp only [render_name, pyReplace_tokNAME, data_mk, String.data_append, tokNAME_data,
      List.append_assoc, hz]
    rw [replaceCore_skip '{' tailNAME [] a.data _ (braceFree_mem a ha)]
    simp only [tokNAMEl]
    rw [replaceCore_hit '{' tailNAME [] b.data]
    rw [replaceCore_free '{' tailNAME [] b.data (braceFree_mem b hb)]
    simp

/-- Concrete contact whose `first_name` is present but JSON null. -/
def contactN : Contact := ⟨some ("n@x.com"), some none⟩

/-- Concrete environment for the C10 witness: the middle contact has a
null `first_name`; all actual send calls would succeed. -/
def envC10 : SendEnv :=
  { apiKey := some ("KEY")
    sender := some ("s@x.com")
    getResp := ⟨200, [contactA, contactN, contactC], ""⟩
    postResp := ⟨500, [], "unused"⟩
    templatePath := "template.html"
    template := some ("Hello \x7b\x7bNAME\x7d\x7d")
    nowEpoch := 1760227200
    send := fun _ => none }

/-- Witness for C10: the null-name recipient is recorded as the single
failure, both other recipients are sent (2 sends, 2 attempts). -/
theorem c10_display_name_fallback_witness :
    (∀ c : Contact, c.first_name = none → contact_name c = some ("Trader")) ∧
      (∀ (c : Contact) (s : String), c.first_name = some (some s) → contact_name c = some s) ∧
      (∀ a b : String, braceFree a = true → braceFree b = true →
        render_name (a ++ tokNAME ++ b) "" = a ++ b) ∧
      (send_emails_with_subject envC10).failures = [(some ("n@x.com"), typeErrNone)] ∧
      (send_emails_with_subject envC10).sent = 2 ∧
      (send_emails_with_subject envC10).send_attempts = 2 ∧
      (send_emails_with_subject envC10).success = false :=
  c10_display_name_fallback envC10 [contactA] [contactC] contactN
    ("Hello \x7b\x7bNAME\x7d\x7d") rfl rfl rfl rfl rfl rfl (by decide) (by decide) (by decide)

/-! ## Claim C5 — fetch fallback policy -/

theorem process_post_attempted (env : SendEnv) (cs : List Contact) (p : Bool) :
    (process_contacts env cs p).post_attempted = p := by
  unfold process_contacts
  split
  · rfl
  · cases htm : env.template with
    | none => rfl
    | some tmpl =>
      dsimp only
      split <;> rfl

theorem process_contacts_used (env : SendEnv) (cs : List Contact) (p : Bool) :
    (process_contacts env cs p).contacts_used = cs := by
  unfold process_contacts
  split
  · rfl
  · cases htm : env.template with
    | none => rfl
    | some tmpl =>
      dsimp only
      split <;> rfl

/-- C5 (amended): the fallback POST search is issued exactly when the
primary GET returns a status different from 200 (not: any non-2xx
status); whichever of the two requests returns 200 supplies the contact
list; when both return non-200 the run aborts with zero sends and the
fetch-error message carrying the POST response's status and raw text. -/
theorem c5_fetch_fallback_on_status_ne_200 (env : SendEnv)
    (hkey : falsy env.apiKey = false) (hsender : falsy env.sender = false) :
    ((send_emails_with_subject env).post_attempted = true ↔ env.getResp.status ≠ 200) ∧
      (env.getResp.status = 200 →
        (send_emails_with_subject env).contacts_used = env.getResp.result) ∧
      (env.getResp.status ≠ 200 → env.postResp.status = 200 →
        (send_emails_with_subject env).contacts_used = env.postResp.result) ∧
      (env.getResp.status ≠ 200 → env.postResp.status ≠ 200 →
        send_emails_with_subject env =
          ⟨false,
            "Failed to fetch contacts. Status: " ++ toString env.postResp.status ++
              ", Response: " ++ env.postResp.text,
            0, [], 0, true, [], none⟩) := by
  by_cases hg : env.getResp.status = 200
  · have hrun := run_with_get_200 env hkey hsender hg
    refine ⟨?_, fun _ => ?_, fun hng _ => absurd hg hng, fun hng _ => absurd hg hng⟩
    · rw [hrun, process_post_attempted]
      simp [hg]
    · rw [hrun, process_contacts_used]
  · by_cases hp : env.postResp.status = 200
    · have hrun : send_emails_with_subject env =
          process_contacts env env.postResp.result true := by
        unfold send_emails_with_subject
        rw [hkey, hsender, hp]
        simp [hg]
      refine ⟨?_, fun h200 => absurd h200 hg, fun _ _ => ?_, fun _ hnp => absurd hp hnp⟩
      · rw [hrun, process_post_attempted]
        simp [hg]
      · rw [hrun, process_contacts_used]
    · have hrun : send_emails_with_subject env =
          ⟨false,
            "Failed to fetch contacts. Status: " ++ toString env.postResp.status ++
              ", Response: " ++ env.postResp.text,
            0, [], 0, true, [], none⟩ := by
        unfold send_emails_with_subject
        rw [hkey, hsender]
        simp [hg, hp]
      refine ⟨?_, fun h200 => absurd h200 hg, fun _ hp2 => absurd hp2 hp, fun _ _ => hrun⟩
      rw [hrun]
      simp [hg]

/-- Concrete environment refuting the claim's `non-2xx` wording: the
primary GET returns 201, a 2xx status, with a valid body. -/
def envC5 : SendEnv :=
  { apiKey := some ("KEY")
    sender := some ("s@x.com")
    getResp := ⟨201, [contactA], "got"⟩
    postResp := ⟨200, [contactA], ""⟩
    templatePath := "template.html"
    template := some ("Hello")
    nowEpoch := 1760227200
    send := fun _ => none }

/-- Counterexample to C5 as stated: a GET status of 201 is 2xx, yet the
fallback POST search is still issued, because the code compares against
200 exactly. -/
theorem c5_counterexample_2xx_get_still_falls_back :
    (200 ≤ 201 ∧ 201 < 300) ∧ envC5.getResp.status = 201 ∧
      (send_emails_with_subject envC5).post_attempted = true := by
  refine ⟨by decide, rfl, ?_⟩
  rfl

/-- Concrete both-requests-fail environment for the C5 witness. -/
def envC5b : SendEnv :=
  { apiKey := some ("KEY")
    sender := some ("s@x.com")
    getResp := ⟨500, [], "g-err"⟩
    postResp := ⟨503, [], "oops"⟩
    templatePath := "template.html"
    template := none
    nowEpoch := 0
    send := fun _ => none }

/-- Witness for the amended C5 at a concrete environment where both
fetch requests fail. -/
theorem c5_fetch_fallback_on_status_ne_200_witness :
    ((send_emails_with_subject envC5b).post_attempted = true ↔ envC5b.getResp.status ≠ 200) ∧
      (envC5b.getResp.status = 200 →
        (send_emails_with_subject envC5b).contacts_used = envC5b.getResp.result) ∧
      (envC5b.getResp.status ≠ 200 → envC5b.postResp.status = 200 →
        (send_emails_with_subject envC5b).contacts_used = envC5b.postResp.result) ∧
      (envC5b.getResp.status ≠ 200 → envC5b.postResp.status ≠ 200 →
        send_emails_with_subject envC5b =
          ⟨false,
            "Failed to fetch contacts. Status: " ++ toString envC5b.postResp.status ++
              ", Response: " ++ envC5b.postResp.text,
            0, [], 0, true, [], none⟩) :=
  c5_fetch_fallback_on_status_ne_200 envC5b rfl rfl

/-! ## Claim C2 — schedule range invariant -/

/-- C2 (amended): the default config satisfies the range invariant, the
update endpoint preserves it (out-of-range input, e.g. hour 24 or
minute 60, is rejected with 400 and leaves the whole state unchanged),
and loading preserves it only under the extra assumption that the
persisted file's values are themselves in range — `load_schedule_config`
applies file contents without validation. -/
theorem c2_schedule_range_invariant_amended :
    scheduleInv initialScheduleConfig ∧
      (∀ (nowStr : String) (wOk rOk : Bool) (st : SysState) (req : Option UpdateReq),
        scheduleInv st.config → scheduleInv (update_schedule nowStr wOk rOk st req).2.config) ∧
      (∀ (nowStr : String) (wOk rOk : Bool) (st : SysState) (h m : Int) (ub : Option String),
        (¬(0 ≤ h ∧ h ≤ 23) ∨ ¬(0 ≤ m ∧ m ≤ 59)) →
        (update_schedule nowStr wOk rOk st
            (some ⟨some (some h), some (some m), ub⟩)).1.code = 400 ∧
          (update_schedule nowStr wOk rOk st (some ⟨some (some h), some (some m), ub⟩)).2 = st) ∧
      (∀ (wOk : Bool) (cfg : ScheduleConfig) (file : Option FileCfg),
        scheduleInv cfg → (∀ f, file = some f → fileInRange f) →
        scheduleInv (load_schedule_config wOk cfg file).1) := by
  refine ⟨by decide, ?_, ?_, ?_⟩
  · intro nowStr wOk rOk st req hinv
    cases req with
    | none => exact hinv
    | some r =>
      obtain ⟨rh, rm, ru⟩ := r
      cases rh with
      | none => exact hinv
      | some hv =>
        cases rm with
        | none => exact hinv
        | some mv =>
          cases hv with
          | none =>
            cases mv with
            | none => exact hinv
            | some m => exact hinv
          | some h =>
            cases mv with
            | none => exact hinv
            | some m =>
              by_cases h1 : 0 ≤ h ∧ h ≤ 23
              · by_cases h2 : 0 ≤ m ∧ m ≤ 59
                · have e : (update_schedule nowStr wOk rOk st
                      (some ⟨some (some h), some (some m), ru⟩)).2.config =
                        ⟨h, m, some nowStr, ru.getD ("web_interface")⟩ := by
                    unfold update_schedule
                    dsimp only
                    rw [if_neg (not_not_intro h1), if_neg (not_not_intro h2)]
                    cases rOk <;> rfl
                  rw [e]
                  exact ⟨h1.1, h1.2, h2.1, h2.2⟩
                · have e : (update_schedule nowStr wOk rOk st
                      (some ⟨some (some h), some (some m), ru⟩)).2 = st := by
                    unfold update_schedule
                    dsimp only
                    rw [if_neg (not_not_intro h1), if_pos h2]
                  rw [e]
                  exact hinv
              · have e : (update_schedule nowStr wOk rOk st
                    (some ⟨some (some h), some (some m), ru⟩)).2 = st := by
                  unfold update_schedule
                  dsimp only
                  rw [if_pos h1]
                rw [e]
                exact hinv
  · intro nowStr wOk rOk st h m ub hbad
    rcases hbad with hb | hb
    · have e : update_schedule nowStr wOk rOk st (some ⟨some (some h), some (some m), ub⟩) =
          (⟨400, "error", "Hour must be between 0 and 23"⟩, st) := by
        unfold update_schedule
        dsimp only
        rw [if_pos hb]
      rw [e]
      exact ⟨rfl, rfl⟩
    · by_cases hbh : 0 ≤ h ∧ h ≤ 23
      · have e : update_schedule nowStr wOk rOk st (some ⟨some (some h), some (some m), ub⟩) =
            (⟨400, "error", "Minute must be between 0 and 59"⟩, st) := by
          unfold update_schedule
          dsimp only
          rw [if_neg (not_not_intro hbh), if_pos hb]
        rw [e]
        exact ⟨rfl, rfl⟩
      · have e : update_schedule nowStr wOk rOk st (some ⟨some (some h), some (some m), ub⟩) =
            (⟨400, "error", "Hour must be between 0 and 23"⟩, st) := by
          unfold update_schedule
          dsimp only
          rw [if_pos hbh]
        rw [e]
        exact ⟨rfl, rfl⟩
  · intro wOk cfg file hinv hfr
    cases file with
    | none => exact hinv
    | some f =>
      obtain ⟨fh, fm, fl, fu⟩ := f
      have hf := hfr ⟨fh, fm, fl, fu⟩ rfl
      have hhour : 0 ≤ fh.getD cfg.hour ∧ fh.getD cfg.hour ≤ 23 := by
        cases fh with
        | none => exact ⟨hinv.1, hinv.2.1⟩
        | some hh => exact hf.1 hh rfl
      have hmin : 0 ≤ fm.getD cfg.minute ∧ fm.getD cfg.minute ≤ 59 := by
        cases fm with
        | none => exact ⟨hinv.2.2.1, hinv.2.2.2⟩
        | some mm => exact hf.2 mm rfl
      exact ⟨hhour.1, hhour.2, hmin.1, hmin.2⟩

/-- Counterexample to C2 as stated: loading a persisted file holding
hour 24 mutates the config to hour 24 — `load_schedule_config` performs
no range validation, so the loaded state violates the invariant. -/
theorem c2_counterexample_load_accepts_hour_24 :
    (load_schedule_config true initialScheduleConfig
        (some ⟨some 24, some 0, none, none⟩)).1.hour = 24 ∧
      ¬ scheduleInv (load_schedule_config true initialScheduleConfig
        (some ⟨some 24, some 0, none, none⟩)).1 :=
  ⟨rfl, by decide⟩

/-- Witness for the amended C2: a valid update keeps the invariant, the
boundary hour 24 is rejected with 400, and loading an in-range file
keeps the invariant. -/
theorem c2_schedule_range_invariant_amended_witness :
    scheduleInv (update_schedule ("t") true true ⟨initialScheduleConfig, none⟩
        (some ⟨some (some 23), some (some 59), none⟩)).2.config ∧
      (update_schedule ("t") true true ⟨initialScheduleConfig, none⟩
        (some ⟨some (some 24), some (some 0), none⟩)).1.code = 400 ∧
      scheduleInv (load_schedule_config true initialScheduleConfig
        (some ⟨some 12, some 30, none, none⟩)).1 := by
  have hfile : ∀ f : FileCfg, (some ⟨some 12, some 30, none, none⟩ : Option FileCfg) = some f →
      fileInRange f := by
    intro f hf
    injection hf with hf2
    subst hf2
    constructor
    · intro h2 hh
      injection hh with h3
      subst h3
      exact ⟨by decide, by decide⟩
    · intro m2 hm
      injection hm with h3
      subst h3
      exact ⟨by decide, by decide⟩
  exact ⟨c2_schedule_range_invariant_amended.2.1 ("t") true true ⟨initialScheduleConfig, none⟩
      (some ⟨some (some 23), some (some 59), none⟩) (by decide),
    (c2_schedule_range_invariant_amended.2.2.1 ("t") true true ⟨initialScheduleConfig, none⟩
      24 0 none (Or.inl (by decide))).1,
    c2_schedule_range_invariant_amended.2.2.2 true initialScheduleConfig
      (some ⟨some 12, some 30, none, none⟩) (by decide) hfile⟩

/-! ## Claim C3 — which runs update the RunRecord -/

/-- C3 (amended): a scheduled run overwrites every field of the
`last_execution` record with the run's outcome, but the manual trigger
endpoint only reports the outcome in its HTTP response and leaves the
record untouched. -/
theorem c3_run_record_only_scheduled_job_updates :
    (∀ (env : SendEnv) (nowStr : String) (rec : RunRecord),
      (scheduled_daily_email_job env nowStr rec).timestamp = some nowStr ∧
        (scheduled_daily_email_job env nowStr rec).status =
          (if (send_emails_with_subject env).success then "Success" else "Failed") ∧
        (scheduled_daily_email_job env nowStr rec).message =
          (send_emails_with_subject env).message ∧
        (scheduled_daily_email_job env nowStr rec).emails_sent =
          (send_emails_with_subject env).sent ∧
        (scheduled_daily_email_job env nowStr rec).error =
          (if (send_emails_with_subject env).success then none
            else some (send_emails_with_subject env).message)) ∧
      (∀ (env : SendEnv) (key : String) (rec : RunRecord),
        (trigger_test env (some key) key rec).2 = rec ∧
          (trigger_test env (some key) key rec).1.message =
            (send_emails_with_subject env).message ∧
          (trigger_test env (some key) key rec).1.emails_sent =
            (send_emails_with_subject env).sent) := by
  constructor
  · intro env nowStr rec
    exact ⟨rfl, rfl, rfl, rfl, rfl⟩
  · intro env key rec
    unfold trigger_test
    rw [if_neg (by simp)]
    exact ⟨rfl, rfl, rfl⟩

/-- Concrete environment for the C3 counterexample: a run that succeeds
and sends one email. -/
def envC3 : SendEnv :=
  { apiKey := some ("KEY")
    sender := some ("s@x.com")
    getResp := ⟨200, [contactA], ""⟩
    postResp := ⟨500, [], "unused"⟩
    templatePath := "template.html"
    template := some ("Hello")
    nowEpoch := 0
    send := fun _ => none }

/-- Counterexample to C3 as stated: a manual-trigger run completes
successfully (HTTP 200, one email sent) yet the `last_execution` record
still holds its initial `Not started` / 0-sent snapshot — the manual
trigger endpoint never updates the RunRecord. -/
theorem c3_counterexample_manual_trigger_skips_run_record :
    (trigger_test envC3 (some ("k")) ("k") initialRunRecord).2 = initialRunRecord ∧
      (trigger_test envC3 (some ("k")) ("k") initialRunRecord).1.code = 200 ∧
      (trigger_test envC3 (some ("k")) ("k") initialRunRecord).1.emails_sent = 1 ∧
      initialRunRecord.emails_sent = 0 ∧ initialRunRecord.status = "Not started" := by
  refine ⟨rfl, ?_, ?_, rfl, rfl⟩ <;> decide

/-! ## Claim C7 — reconfigure / get-schedule / persistence round trip -/

/-- C7: for every in-range pair, the update endpoint answers 200 with
status `success`, a subsequent `get_schedule` returns exactly that pair,
the persisted file holds the same pair, and reloading that file from the
default config (a simulated restart) yields the same pair. -/
theorem c7_reconfigure_roundtrip (h m : Int) (st : SysState) (nowStr ub : String)
    (hh : 0 ≤ h ∧ h ≤ 23) (hm : 0 ≤ m ∧ m ≤ 59) :
    (update_schedule nowStr true true st
        (some ⟨some (some h), some (some m), some ub⟩)).1.code = 200 ∧
      (update_schedule nowStr true true st
        (some ⟨some (some h), some (some m), some ub⟩)).1.statusStr = "success" ∧
      get_schedule (update_schedule nowStr true true st
        (some ⟨some (some h), some (some m), some ub⟩)).2 = (h, m) ∧
      (update_schedule nowStr true true st
        (some ⟨some (some h), some (some m), some ub⟩)).2.file =
        some ⟨some h, some m, some (some nowStr), some ub⟩ ∧
      (load_schedule_config true initialScheduleConfig
        (update_schedule nowStr true true st
          (some ⟨some (some h), some (some m), some ub⟩)).2.file).1.hour = h ∧
      (load_schedule_config true initialScheduleConfig
        (update_schedule nowStr true true st
          (some ⟨some (some h), some (some m), some ub⟩)).2.file).1.minute = m := by
  have e : update_schedule nowStr true true st (some ⟨some (some h), some (some m), some ub⟩) =
      (⟨200, "success",
          "Schedule updated successfully to " ++ pad2 h ++ ":" ++ pad2 m ++ " Dubai Time"⟩,
        ⟨⟨h, m, some nowStr, ub⟩, some ⟨some h, some m, some (some nowStr), some ub⟩⟩) := by
    unfold update_schedule save_schedule_config
    dsimp only
    rw [if_neg (not_not_intro hh), if_neg (not_not_intro hm)]
    rfl
  rw [e]
  exact ⟨rfl, rfl, rfl, rfl, rfl, rfl⟩

/-- Witness for C7 at the boundary pair 23:59. -/
theorem c7_reconfigure_roundtrip_witness :
    (update_schedule ("t") true true ⟨initialScheduleConfig, none⟩
        (some ⟨some (some 23), some (some 59), some ("u")⟩)).1.code = 200 ∧
      (update_schedule ("t") true true ⟨initialScheduleConfig, none⟩
        (some ⟨some (some 23), some (some 59), some ("u")⟩)).1.statusStr = "success" ∧
      get_schedule (update_schedule ("t") true true ⟨initialScheduleConfig, none⟩
        (some ⟨some (some 23), some (some 59), some ("u")⟩)).2 = (23, 59) ∧
      (update_schedule ("t") true true ⟨initialScheduleConfig, none⟩
        (some ⟨some (some 23), some (some 59), some ("u")⟩)).2.file =
        some ⟨some 23, some 59, some (some ("t")), some ("u")⟩ ∧
      (load_schedule_config true initialScheduleConfig
        (update_schedule ("t") true true ⟨initialScheduleConfig, none⟩
          (some ⟨some (some 23), some (some 59), some ("u")⟩)).2.file).1.hour = 23 ∧
      (load_schedule_config true initialScheduleConfig
        (update_schedule ("t") true true ⟨initialScheduleConfig, none⟩
          (some ⟨some (some 23), some (some 59), some ("u")⟩)).2.file).1.minute = 59 :=
  c7_reconfigure_roundtrip 23 59 ⟨initialScheduleConfig, none⟩ ("t") ("u")
    (by decide) (by decide)

/-! ## Claim C9 — persistence failure is silent -/

/-- C9: when the config-file write fails during a valid reconfiguration,
`save_schedule_config` swallows the exception, so the endpoint still
answers 200/`success`, the in-memory schedule holds the new pair, and
the file is left as it was. -/
theorem c9_persist_failure_silent (h m : Int) (st : SysState) (nowStr ub : String)
    (hh : 0 ≤ h ∧ h ≤ 23) (hm : 0 ≤ m ∧ m ≤ 59) :
    (update_schedule nowStr false true st
        (some ⟨some (some h), some (some m), some ub⟩)).1.code = 200 ∧
      (update_schedule nowStr false true st
        (some ⟨some (some h), some (some m), some ub⟩)).1.statusStr = "success" ∧
      (update_schedule nowStr false true st
        (some ⟨some (some h), some (some m), some ub⟩)).2.config.hour = h ∧
      (update_schedule nowStr false true st
        (some ⟨some (some h), some (some m), some ub⟩)).2.config.minute = m ∧
      (update_schedule nowStr false true st
        (some ⟨some (some h), some (some m), some ub⟩)).2.file = st.file := by
  have e : update_schedule nowStr false true st (some ⟨some (some h), some (some m), some ub⟩) =
      (⟨200, "success",
          "Schedule updated successfully to " ++ pad2 h ++ ":" ++ pad2 m ++ " Dubai Time"⟩,
        ⟨⟨h, m, some nowStr, ub⟩, st.file⟩) := by
    unfold update_schedule save_schedule_config
    dsimp only
    rw [if_neg (not_not_intro hh), if_neg (not_not_intro hm)]
    rfl
  rw [e]
  exact ⟨rfl, rfl, rfl, rfl, rfl⟩

/-- Witness for C9 at 08:30 with a failing file write. -/
theorem c9_persist_failure_silent_witness :
    (update_schedule ("t") false true ⟨initialScheduleConfig, none⟩
        (some ⟨some (some 8), some (some 30), some ("u")⟩)).1.code = 200 ∧
      (update_schedule ("t") false true ⟨initialScheduleConfig, none⟩
        (some ⟨some (some 8), some (some 30), some ("u")⟩)).1.statusStr = "success" ∧
      (update_schedule ("t") false true ⟨initialScheduleConfig, none⟩
        (some ⟨some (some 8), some (some 30), some ("u")⟩)).2.config.hour = 8 ∧
      (update_schedule ("t") false true ⟨initialScheduleConfig, none⟩
        (some ⟨some (some 8), some (some 30), some ("u")⟩)).2.config.minute = 30 ∧
      (update_schedule ("t") false true ⟨initialScheduleConfig, none⟩
        (some ⟨some (some 8), some (some 30), some ("u")⟩)).2.file =
        (⟨initialScheduleConfig, none⟩ : SysState).file :=
  c9_persist_failure_silent 8 30 ⟨initialScheduleConfig, none⟩ ("t") ("u")
    (by decide) (by decide)

/-! ## Claim C8 — 25-hour staleness window -/

theorem hasPre_append_of (v w m : List Char) (h : hasPre v w = true) :
    hasPre v (w ++ m) = true := by
  induction v generalizing w with
  | nil => rfl
  | cons a v' ih =>
    cases w with
    | nil => exact absurd h (by simp [hasPre])
    | cons b w' =>
      rw [List.cons_append]
      unfold hasPre at h ⊢
      simp only [Bool.and_eq_true] at h ⊢
      exact ⟨h.1, ih w' h.2⟩

/-- C8: the last-run recency check uses a strict 25-hour window: a last
run strictly older than 25 hours contributes the staleness issue string,
and a last run within 25 hours contributes no staleness issue string. -/
theorem c8_staleness_window_25_hours (r : LastExecView) (now : Int) :
    (now - r.ts_epoch > 25 * 3600 →
      ∃ s ∈ check_last_execution_status (some r) now, isStaleIssue s = true) ∧
      (now - r.ts_epoch ≤ 25 * 3600 →
        ∀ s ∈ check_last_execution_status (some r) now, isStaleIssue s = false) := by
  have hstale : isStaleIssue ("No email sent in last 25 hours (last: " ++ r.ts_str ++ ")") =
      true := by
    unfold isStaleIssue
    simp only [String.data_append, List.append_assoc]
    exact hasPre_append_of _ _ _ (by decide)
  have hfail : ∀ er, isStaleIssue ("Last execution failed: " ++ errText er) = false := by
    intro er
    unfold isStaleIssue
    rw [String.data_append]
    exact hasPre_of_mismatch _ _ (by decide) _
  constructor
  · intro hgt
    refine ⟨"No email sent in last 25 hours (last: " ++ r.ts_str ++ ")", ?_, hstale⟩
    unfold check_last_execution_status
    dsimp only
    rw [if_pos hgt]
    simp [List.mem_append]
  · intro hle s hs
    have h25 : ¬(now - r.ts_epoch > 25 * 3600) := by omega
    unfold check_last_execution_status at hs
    dsimp only at hs
    rw [if_neg h25] at hs
    by_cases hst : r.status = "Failed"
    · rw [if_pos hst] at hs
      simp at hs
      rw [hs]
      exact hfail r.error
    · rw [if_neg hst] at hs
      simp at hs

/-- Witness for C8: with a last run at epoch 0, the check at 90001 s
(25 h + 1 s later) reports staleness and the check at 90000 s does not. -/
theorem c8_staleness_window_25_hours_witness :
    (∃ s ∈ check_last_execution_status
        (some ⟨0, ("1970-01-01 04:00:00"), "Success", none⟩) 90001, isStaleIssue s = true) ∧
      (∀ s ∈ check_last_execution_status
        (some ⟨0, ("1970-01-01 04:00:00"), "Success", none⟩) 90000, isStaleIssue s = false) :=
  ⟨(c8_staleness_window_25_hours ⟨0, ("1970-01-01 04:00:00"), "Success", none⟩ 90001).1
      (by decide),
    (c8_staleness_window_25_hours ⟨0, ("1970-01-01 04:00:00"), "Success", none⟩ 90000).2
      (by decide)⟩

end EmailApi
